import Mathlib

/-!
Verification of the `mysql_stubs.c` driver layer: a shallow embedding of the
C stub functions into Lean.  Native library calls (`mysql_*`) are external
collaborators; each stub is modelled as a pure function of the OCaml-level
arguments together with an oracle describing the native library's responses,
returning the stub's result (an `Except` mirroring raised OCaml exceptions)
paired with the trace of native-session calls it performed.
-/

namespace MysqlStubs

/-- Bytes of an OCaml string (one `Nat` per byte). -/
abbrev Bytes := List Nat

/-- An OCaml exception raised by the stubs: `mysqlError` models
`raise_with_string (caml_named_value "mysql error")` (from `mysqlfailwith` /
`mysqlfailmsg`), `invalidArg` models `invalid_argument`. -/
inductive MlError where
  | mysqlError (msg : String)
  | invalidArg (msg : String)
deriving DecidableEq, Repr

/-- The `dbd` abstract value: field 2 is the `open` flag
(`true` = open, `false` = closed).  The `MYSQL*` session pointer itself is
external and not modelled. -/
structure Dbd where
  isOpen : Bool
deriving DecidableEq, Repr

/-- Native-session calls a connection stub can issue, recorded as a trace. -/
inductive NativeCall where
  | listDbs
  | changeUser
  | selectDb
  | closeSession
  | ping
  | realQuery
  | storeResult
  | errno
  | errorMsg
  | affectedRows
  | insertId
  | hostInfo
  | serverInfo
  | protoInfo
  | stmtInit
  | stmtPrepare
deriving DecidableEq, Repr

/-- The closed-connection error raised by `check_dbd` via
`mysqlfailmsg("Mysql.%s called with closed connection", fun)`. -/
def closedConnMsg (fn : String) : MlError :=
  .mysqlError ("Mysql." ++ fn ++ " called with closed connection")

/-- `check_dbd`: raises iff the `open` flag of the dbd is false. -/
def check_dbd (dbd : Dbd) (fn : String) : Except MlError Unit :=
  if dbd.isOpen then .ok () else .error (closedConnMsg fn)

/-- `db_change_user`: guarded by `check_dbd`; the oracle is
`some err` when `mysql_change_user` fails with native error text `err`. -/
def db_change_user (dbd : Dbd) (o : Option String) :
    Except MlError Unit × List NativeCall :=
  match check_dbd dbd "change_user" with
  | .error e => (.error e, [])
  | .ok () =>
    match o with
    | some err => (.error (.mysqlError ("Mysql.change_user: " ++ err)), [.changeUser])
    | none => (.ok (), [.changeUser])

/-- `db_list_dbs`: NOT guarded by `check_dbd` in the source; always calls
`mysql_list_dbs` on the session.  The oracle is `none` when the native call
returns no result handle, `some rows` for the fetched database names.
Returns `None` for a missing handle or zero rows. -/
def db_list_dbs (dbd : Dbd) (o : Option (List String)) :
    Except MlError (Option (List String)) × List NativeCall :=
  (match o with
   | none => .ok none
   | some rows => if rows.length = 0 then .ok none else .ok (some rows),
   [.listDbs])

/-- `db_select_db`: guarded by `check_dbd`; oracle as in `db_change_user`. -/
def db_select_db (dbd : Dbd) (newdb : String) (o : Option String) :
    Except MlError Unit × List NativeCall :=
  match check_dbd dbd "select_db" with
  | .error e => (.error e, [])
  | .ok () =>
    match o with
    | some err => (.error (.mysqlError ("Mysql.select_db: " ++ err)), [.selectDb])
    | none => (.ok (), [.selectDb])

/-- `db_disconnect`: guarded by `check_dbd` (so it raises on an already
closed dbd); on an open dbd it calls `mysql_close` and clears the flag. -/
def db_disconnect (dbd : Dbd) : Except MlError Dbd × List NativeCall :=
  match check_dbd dbd "disconnect" with
  | .error e => (.error e, [])
  | .ok () => (.ok { isOpen := false }, [.closeSession])

/-- `db_ping`: guarded by `check_dbd`; oracle as in `db_change_user`. -/
def db_ping (dbd : Dbd) (o : Option String) :
    Except MlError Unit × List NativeCall :=
  match check_dbd dbd "ping" with
  | .error e => (.error e, [])
  | .ok () =>
    match o with
    | some err => (.error (.mysqlError ("Mysql.ping: " ++ err)), [.ping])
    | none => (.ok (), [.ping])

/-- State of a buffered `MYSQL_RES`: the column count, the buffered rows
(each native cell is `none` for SQL NULL, `some bytes` otherwise), and the
row cursor position. -/
structure ResState where
  numFields : Nat
  rows : List (List (Option Bytes))
  cursor : Nat
deriving DecidableEq, Repr

/-- `db_exec`: guarded by `check_dbd`; on success wraps the stored result
(`none` models a NULL `MYSQL_RES*`, as for DDL/DML).  The oracle is the
outcome of `mysql_real_query` / `mysql_store_result`. -/
def db_exec (dbd : Dbd) (sql : String) (o : Except String (Option ResState)) :
    Except MlError (Option ResState) × List NativeCall :=
  match check_dbd dbd "exec" with
  | .error e => (.error e, [])
  | .ok () =>
    match o with
    | .error err => (.error (.mysqlError ("Mysql.exec: " ++ err)), [.realQuery])
    | .ok r => (.ok r, [.realQuery, .storeResult])

/-- `val_str_option`: marshals a native cell pointer to a string option;
a NULL pointer becomes `None`, otherwise the cell's bytes become `Some`. -/
def val_str_option (cell : Option Bytes) : Option Bytes :=
  match cell with
  | none => none
  | some bytes => some bytes

/-- The row-assembly loop of `db_fetch`: for `i = 0 .. n-1` store
`val_str_option(row[i], length[i])` into a fresh `n`-tuple. -/
def build_row (n : Nat) (row : List (Option Bytes)) : List (Option Bytes) :=
  (List.range n).map (fun i => val_str_option (row.getD i none))

/-- `db_fetch`: fails when the result holds no `MYSQL_RES` handle or has
zero columns; otherwise returns `None` at end of data or `Some` of the next
row (advancing the cursor).  The state argument is `none` for a NULL
`MYSQL_RES*` inside the custom block. -/
def db_fetch (res : Option ResState) :
    Except MlError (Option (List (Option Bytes)) × ResState) :=
  match res with
  | none => .error (.mysqlError "Mysql.fetch: result did not return fetchable data")
  | some st =>
    if st.numFields = 0 then .error (.mysqlError "Mysql.fetch: no columns")
    else
      match st.rows[st.cursor]? with
      | none => .ok (none, st)
      | some row =>
          .ok (some (build_row st.numFields row), { st with cursor := st.cursor + 1 })

/-- `db_to_row`: seeks the cursor to an absolute offset; raises
`invalid_argument` when `off < 0 || off > num_rows - 1`.  The first argument
is `none` for a NULL `MYSQL_RES*`, `some n` for a handle with `n` rows. -/
def db_to_row (res : Option Nat) (off : Int) : Except MlError Unit :=
  match res with
  | none => .error (.mysqlError "Mysql.to_row: result did not return fetchable data")
  | some numRows =>
    if off < 0 ∨ off > (numRows : Int) - 1 then
      .error (.invalidArg "Mysql.to_row: offset out of range")
    else .ok ()

/-- `db_status`: guarded by `check_dbd`; returns `mysql_errno`. -/
def db_status (dbd : Dbd) (nativeErrno : Nat) :
    Except MlError Nat × List NativeCall :=
  match check_dbd dbd "status" with
  | .error e => (.error e, [])
  | .ok () => (.ok nativeErrno, [.errno])

/-- `db_errmsg`: guarded by `check_dbd`; the oracle is the `mysql_error`
text (`none` models a NULL pointer).  A NULL or empty message yields `None`,
anything else `Some` of the full text (`strlen` length). -/
def db_errmsg (dbd : Dbd) (msg : Option String) :
    Except MlError (Option String) × List NativeCall :=
  match check_dbd dbd "errmsg" with
  | .error e => (.error e, [])
  | .ok () =>
    match msg with
    | none => (.ok none, [.errorMsg])
    | some s => if s = "" then (.ok none, [.errorMsg]) else (.ok (some s), [.errorMsg])

/-- `db_affected`: NOT guarded by `check_dbd`; calls
`mysql_affected_rows` on the session unconditionally. -/
def db_affected (dbd : Dbd) (nativeCount : Nat) :
    Except MlError Nat × List NativeCall :=
  (.ok nativeCount, [.affectedRows])

/-- `db_insert_id`: NOT guarded by `check_dbd`; calls `mysql_insert_id`
on the session unconditionally. -/
def db_insert_id (dbd : Dbd) (nativeId : Nat) :
    Except MlError Nat × List NativeCall :=
  (.ok nativeId, [.insertId])

/-- `db_host_info`: NOT guarded; calls `mysql_get_host_info`. -/
def db_host_info (dbd : Dbd) (info : String) :
    Except MlError String × List NativeCall :=
  (.ok info, [.hostInfo])

/-- `db_server_info`: NOT guarded; calls `mysql_get_server_info`. -/
def db_server_info (dbd : Dbd) (info : String) :
    Except MlError String × List NativeCall :=
  (.ok info, [.serverInfo])

/-- `db_proto_info`: NOT guarded; calls `mysql_get_proto_info`. -/
def db_proto_info (dbd : Dbd) (info : Nat) :
    Except MlError Nat × List NativeCall :=
  (.ok info, [.protoInfo])

/-- Oracle for `caml_mysql_stmt_prepare`: whether `mysql_stmt_init` and
`mysql_stmt_prepare` succeed. -/
structure PrepOracle where
  initOk : Bool
  prepareOk : Bool
deriving DecidableEq, Repr

/-- `caml_mysql_stmt_prepare`: guarded by `check_dbd` (as "P.prepare"). -/
def caml_mysql_stmt_prepare (dbd : Dbd) (o : PrepOracle) :
    Except MlError Unit × List NativeCall :=
  match check_dbd dbd "P.prepare" with
  | .error e => (.error e, [])
  | .ok () =>
    if !o.initOk then (.error (.mysqlError "P.prepare : mysql_stmt_init"), [.stmtInit])
    else if !o.prepareOk then
      (.error (.mysqlError "P.prepare : mysql_stmt_prepare"), [.stmtInit, .stmtPrepare])
    else (.ok (), [.stmtInit, .stmtPrepare])

/-- The OCaml `dbty` column-type tags (the `*_TY` constants). -/
inductive DbTy where
  | IntTy
  | FloatTy
  | StringTy
  | SetTy
  | EnumTy
  | DatetimeTy
  | DateTy
  | TimeTy
  | YearTy
  | TimestampTy
  | UnknownTy
  | Int64Ty
  | BlobTy
  | DecimalTy
deriving DecidableEq, Repr

/-- Numeric values of the `FIELD_TYPE_*` wire codes (from `mysql.h`,
`enum enum_field_types`). -/
def FIELD_TYPE_DECIMAL : Int := 0

def FIELD_TYPE_TINY : Int := 1

def FIELD_TYPE_SHORT : Int := 2

def FIELD_TYPE_LONG : Int := 3

def FIELD_TYPE_FLOAT : Int := 4

def FIELD_TYPE_DOUBLE : Int := 5

def FIELD_TYPE_NULL : Int := 6

def FIELD_TYPE_TIMESTAMP : Int := 7

def FIELD_TYPE_LONGLONG : Int := 8

def FIELD_TYPE_INT24 : Int := 9

def FIELD_TYPE_DATE : Int := 10

def FIELD_TYPE_TIME : Int := 11

def FIELD_TYPE_DATETIME : Int := 12

def FIELD_TYPE_YEAR : Int := 13

def FIELD_TYPE_NEWDATE : Int := 14

def FIELD_TYPE_ENUM : Int := 247

def FIELD_TYPE_SET : Int := 248

def FIELD_TYPE_TINY_BLOB : Int := 249

def FIELD_TYPE_MEDIUM_BLOB : Int := 250

def FIELD_TYPE_LONG_BLOB : Int := 251

def FIELD_TYPE_BLOB : Int := 252

def FIELD_TYPE_VAR_STRING : Int := 253

def FIELD_TYPE_STRING : Int := 254

/-- The static `map[]` table inside `type2dbty`, sentinel `-1` included. -/
def typeMap : List (Int × DbTy) :=
  [ (FIELD_TYPE_DECIMAL, .DecimalTy)
  , (FIELD_TYPE_TINY, .IntTy)
  , (FIELD_TYPE_SHORT, .IntTy)
  , (FIELD_TYPE_LONG, .IntTy)
  , (FIELD_TYPE_FLOAT, .FloatTy)
  , (FIELD_TYPE_DOUBLE, .FloatTy)
  , (FIELD_TYPE_NULL, .StringTy)
  , (FIELD_TYPE_TIMESTAMP, .TimestampTy)
  , (FIELD_TYPE_LONGLONG, .Int64Ty)
  , (FIELD_TYPE_INT24, .IntTy)
  , (FIELD_TYPE_DATE, .DateTy)
  , (FIELD_TYPE_TIME, .TimeTy)
  , (FIELD_TYPE_DATETIME, .DatetimeTy)
  , (FIELD_TYPE_YEAR, .YearTy)
  , (FIELD_TYPE_NEWDATE, .UnknownTy)
  , (FIELD_TYPE_ENUM, .EnumTy)
  , (FIELD_TYPE_SET, .SetTy)
  , (FIELD_TYPE_TINY_BLOB, .BlobTy)
  , (FIELD_TYPE_MEDIUM_BLOB, .BlobTy)
  , (FIELD_TYPE_LONG_BLOB, .BlobTy)
  , (FIELD_TYPE_BLOB, .BlobTy)
  , (FIELD_TYPE_VAR_STRING, .StringTy)
  , (FIELD_TYPE_STRING, .StringTy)
  , (-1, .UnknownTy) ]

/-- The linear scan of `type2dbty`:
`for (i=0; map[i].mysql != -1 && map[i].mysql != type; i++); return map[i].caml;`
stops at the first entry whose key is the sentinel `-1` or the looked-up
type and returns that entry's tag.  An empty list is unreachable in the C
code (the table always ends with the sentinel). -/
def lookupScan : List (Int × DbTy) → Int → DbTy
  | [], _ => .UnknownTy
  | (k, v) :: rest, t => if k = -1 ∨ k = t then v else lookupScan rest t

/-- `type2dbty`: the wire-type-to-tag mapper. -/
def type2dbty (t : Int) : DbTy :=
  lookupScan typeMap t

/-- The wire codes present in the `type2dbty` table (sentinel excluded). -/
def definedWireCodes : List Int :=
  [0, 1, 2, 3, 4, 5, 6, 7, 8, 9, 10, 11, 12, 13, 14, 247, 248, 249, 250, 251, 252, 253, 254]

/-- `MYSQL_DATA_TRUNCATED` fetch return code (from `mysql.h`). -/
def MYSQL_DATA_TRUNCATED : Int := 101

/-- `MYSQL_NO_DATA` fetch return code (from `mysql.h`). -/
def MYSQL_NO_DATA : Int := 100

/-- One bound output column of a prepared-statement row buffer: the length
the first (zero-length-probe) fetch reported into `r->length[index]`, and
the bytes `mysql_stmt_fetch_column` writes into a refetch buffer. -/
structure StmtColumn where
  reportedLength : Nat
  fetched : Bytes
deriving DecidableEq, Repr

/-- The `row_t` result buffer: `count` columns (fixed when `execute` built
it from `mysql_stmt_field_count`) and the per-column binding state. -/
structure RowT where
  count : Nat
  columns : Nat → StmtColumn

/-- Filling a freshly allocated buffer of size `len` by a native copy of
`src`: the native library writes at most `len` bytes; the rest of the
zero-initialised OCaml string stays zero.  The result always has length
exactly `len`. -/
def fillBuffer (len : Nat) (src : Bytes) : Bytes :=
  src.take len ++ List.replicate (len - src.length) 0

/-- `get_column`: if the reported length of column `index` is positive,
allocate a string of exactly that length, refetch the column into it with
`mysql_stmt_fetch_column`, and return `Some` of it; otherwise return
`None` (a zero reported length, whether from SQL NULL or from a genuinely
empty value, yields `None`). -/
def get_column (c : StmtColumn) : Option Bytes :=
  if c.reportedLength > 0 then some (fillBuffer c.reportedLength c.fetched)
  else none

/-- `caml_mysql_stmt_fetch`: `fetchCode` is what `mysql_stmt_fetch`
returned.  Any code other than `0` or `MYSQL_DATA_TRUNCATED` yields `None`;
otherwise the row is assembled with `get_column` for `i = 0 .. count-1`. -/
def caml_mysql_stmt_fetch (r : RowT) (fetchCode : Int) :
    Option (List (Option Bytes)) :=
  if fetchCode ≠ 0 ∧ fetchCode ≠ MYSQL_DATA_TRUNCATED then none
  else some ((List.range r.count).map (fun i => get_column (r.columns i)))

/-- A prepared statement handle: the parameter count and result column
count that `mysql_stmt_param_count` / `mysql_stmt_field_count` report. -/
structure Stmt where
  paramCount : Nat
  fieldCount : Nat
deriving DecidableEq, Repr

/-- Events of `caml_mysql_stmt_execute`, in order: `create_row` calls,
the `mysql_stmt_bind_param` / `mysql_stmt_execute` /
`mysql_stmt_bind_result` native calls, and `destroy_row` releases. -/
inductive ExecEvent where
  | createParamRow
  | bindParam
  | stmtExecute
  | destroyParamRow
  | createResultRow
  | bindResult
  | destroyResultRow
deriving DecidableEq, Repr

/-- Oracle for `caml_mysql_stmt_execute`: whether each fallible native
step succeeds (`create_row` allocation, `mysql_stmt_bind_param`,
`mysql_stmt_execute`, result-row allocation, `mysql_stmt_bind_result`). -/
structure ExecOracle where
  paramAllocOk : Bool
  bindParamOk : Bool
  executeOk : Bool
  resultAllocOk : Bool
  bindResultOk : Bool
deriving DecidableEq, Repr

/-- The parameter-count mismatch message:
`"P.execute : Got %i parameters, but expected %u"`. -/
def paramCountMsg (got expected : Nat) : String :=
  "P.execute : Got " ++ toString got ++ " parameters, but expected " ++ toString expected

/-- `caml_mysql_stmt_execute`: validates the parameter count, builds and
binds the parameter `row_t`, executes, destroys the parameter row on every
path past its creation, then builds and binds the result `row_t` (sized to
`mysql_stmt_field_count`).  Returns the result row's column count on
success, paired with the event trace. -/
def caml_mysql_stmt_execute (stmt : Stmt) (params : List Bytes) (o : ExecOracle) :
    Except MlError Nat × List ExecEvent :=
  let len := params.length
  if len ≠ stmt.paramCount then
    (.error (.mysqlError (paramCountMsg len stmt.paramCount)), [])
  else if !o.paramAllocOk then
    (.error (.mysqlError "P.execute : create_row for params"), [.createParamRow])
  else if !o.bindParamOk then
    (.error (.mysqlError "P.execute : mysql_stmt_bind_param"),
     [.createParamRow, .bindParam, .destroyParamRow])
  else if !o.executeOk then
    (.error (.mysqlError "P.execute : mysql_stmt_execute"),
     [.createParamRow, .bindParam, .stmtExecute, .destroyParamRow])
  else if !o.resultAllocOk then
    (.error (.mysqlError "P.execute : create_row for results"),
     [.createParamRow, .bindParam, .stmtExecute, .destroyParamRow, .createResultRow])
  else if stmt.fieldCount = 0 then
    (.ok stmt.fieldCount,
     [.createParamRow, .bindParam, .stmtExecute, .destroyParamRow, .createResultRow])
  else if !o.bindResultOk then
    (.error (.mysqlError "P.execute : mysql_stmt_bind_result"),
     [.createParamRow, .bindParam, .stmtExecute, .destroyParamRow, .createResultRow,
      .bindResult, .destroyResultRow])
  else
    (.ok stmt.fieldCount,
     [.createParamRow, .bindParam, .stmtExecute, .destroyParamRow, .createResultRow,
      .bindResult])

/-! ### Helper lemmas -/

/-- The buffer filled by `get_column`'s refetch has exactly the allocated
length. -/
theorem fillBuffer_length (len : Nat) (src : Bytes) : (fillBuffer len src).length = len := by
  simp only [fillBuffer, List.length_append, List.length_take, List.length_replicate]
  omega

/-- The linear scan returns `UnknownTy` whenever every entry it could stop
at carries the `UnknownTy` tag. -/
theorem lookupScan_unknown (t : Int) :
    ∀ m : List (Int × DbTy),
      (∀ kv ∈ m, (kv.1 = -1 ∨ kv.1 = t) → kv.2 = DbTy.UnknownTy) →
      lookupScan m t = DbTy.UnknownTy := by
  intro m
  induction m with
  | nil => intro _; rfl
  | cons kv rest ih =>
    intro h
    obtain ⟨k, v⟩ := kv
    by_cases hk : k = -1 ∨ k = t
    · simpa [lookupScan, hk] using h (k, v) (List.mem_cons_self _ _) hk
    · simp only [lookupScan, if_neg hk]
      exact ih (fun kv hkv => h kv (List.mem_cons_of_mem _ hkv))

/-- Every key of the `type2dbty` table is the sentinel or a defined code. -/
theorem typeMap_keys : ∀ kv ∈ typeMap, kv.1 = -1 ∨ kv.1 ∈ definedWireCodes := by decide

/-- Sentinel entries of the `type2dbty` table carry `UnknownTy`. -/
theorem typeMap_sentinel : ∀ kv ∈ typeMap, kv.1 = -1 → kv.2 = DbTy.UnknownTy := by decide

/-- A wire code outside the table falls through to `UnknownTy`. -/
theorem type2dbty_not_defined (t : Int) (ht : t ∉ definedWireCodes) :
    type2dbty t = DbTy.UnknownTy := by
  unfold type2dbty
  apply lookupScan_unknown
  intro kv hkv hcond
  rcases hcond with hs | hkt
  · exact typeMap_sentinel kv hkv hs
  · rcases typeMap_keys kv hkv with hs2 | hmem
    · exact typeMap_sentinel kv hkv hs2
    · exact absurd (hkt ▸ hmem) ht

/-! ### Claims -/

/-- Claim C5: the wire-type-to-tag mapper is a total deterministic function;
every defined wire code maps to exactly one fixed tag (enumerated below),
every code not in the table maps to `UnknownTy` and never raises, all
integer wire types narrower than 64 bits (TINY, SHORT, LONG, INT24) map to
`IntTy`, the 64-bit LONGLONG maps to `Int64Ty`, and all blob sub-variants
map to `BlobTy`. -/
theorem C5_type_mapper_total :
    (∀ t : Int, t ∉ definedWireCodes → type2dbty t = DbTy.UnknownTy) ∧
    definedWireCodes.map type2dbty =
      [DbTy.DecimalTy, DbTy.IntTy, DbTy.IntTy, DbTy.IntTy, DbTy.FloatTy,
       DbTy.FloatTy, DbTy.StringTy, DbTy.TimestampTy, DbTy.Int64Ty, DbTy.IntTy,
       DbTy.DateTy, DbTy.TimeTy, DbTy.DatetimeTy, DbTy.YearTy, DbTy.UnknownTy,
       DbTy.EnumTy, DbTy.SetTy, DbTy.BlobTy, DbTy.BlobTy, DbTy.BlobTy,
       DbTy.BlobTy, DbTy.StringTy, DbTy.StringTy] ∧
    (type2dbty FIELD_TYPE_TINY = DbTy.IntTy ∧ type2dbty FIELD_TYPE_SHORT = DbTy.IntTy ∧
     type2dbty FIELD_TYPE_LONG = DbTy.IntTy ∧ type2dbty FIELD_TYPE_INT24 = DbTy.IntTy) ∧
    type2dbty FIELD_TYPE_LONGLONG = DbTy.Int64Ty ∧
    (type2dbty FIELD_TYPE_TINY_BLOB = DbTy.BlobTy ∧
     type2dbty FIELD_TYPE_MEDIUM_BLOB = DbTy.BlobTy ∧
     type2dbty FIELD_TYPE_LONG_BLOB = DbTy.BlobTy ∧
     type2dbty FIELD_TYPE_BLOB = DbTy.BlobTy) :=
  ⟨type2dbty_not_defined, by decide, by decide, by decide, by decide⟩

/-- Witness for C5: the undefined wire code 255 (GEOMETRY) maps to
`UnknownTy`. -/
theorem C5_witness : type2dbty 255 = DbTy.UnknownTy :=
  C5_type_mapper_total.1 255 (by decide)

/-- Claim C6: for a result with `n` rows, `db_to_row` succeeds exactly when
`0 ≤ off < n`, fails with the `invalid_argument` range error exactly when
`off` is negative or `off ≥ n`, and in particular `seek n` and `seek (-1)`
fail. -/
theorem C6_seek_range (n : Nat) (off : Int) :
    (db_to_row (some n) off = .ok () ↔ 0 ≤ off ∧ off < (n : Int)) ∧
    (db_to_row (some n) off = .error (.invalidArg "Mysql.to_row: offset out of range") ↔
      off < 0 ∨ (n : Int) ≤ off) ∧
    db_to_row (some n) (n : Int) = .error (.invalidArg "Mysql.to_row: offset out of range") ∧
    db_to_row (some n) (-1) = .error (.invalidArg "Mysql.to_row: offset out of range") := by
  refine ⟨?_, ?_, ?_, ?_⟩
  · by_cases h : off < 0 ∨ off > (n : Int) - 1
    · simp only [db_to_row, if_pos h]
      constructor
      · intro he; cases he
      · intro hr; omega
    · simp only [db_to_row, if_neg h]
      constructor
      · intro _; omega
      · intro _; trivial
  · by_cases h : off < 0 ∨ off > (n : Int) - 1
    · simp only [db_to_row, if_pos h]
      constructor
      · intro _; omega
      · intro _; trivial
    · simp only [db_to_row, if_neg h]
      constructor
      · intro he; cases he
      · intro hr; omega
  · simp only [db_to_row, if_pos (show (n : Int) < 0 ∨ (n : Int) > (n : Int) - 1 by omega)]
  · simp only [db_to_row, if_pos (show (-1 : Int) < 0 ∨ (-1 : Int) > (n : Int) - 1 by omega)]

/-- Witness for C6: on a 5-row result, seeking to offset 5 fails with the
range error. -/
theorem C6_witness :
    db_to_row (some 5) 5 = .error (.invalidArg "Mysql.to_row: offset out of range") :=
  (C6_seek_range 5 5).2.2.1

/-- Claim C2: on a successful (or data-truncated) prepared-statement fetch,
the assembled row has exactly `count` entries (the result column count fixed
at execute time); a column whose reported length is zero becomes `none`
(true NULL and genuine zero-length values alike), and a column with
positive reported length becomes `some` of a buffer of exactly that length
filled by the refetch. -/
theorem C2_stmt_row_assembly (r : RowT) (code : Int)
    (h : code = 0 ∨ code = MYSQL_DATA_TRUNCATED) :
    ∃ seq : List (Option Bytes),
      caml_mysql_stmt_fetch r code = some seq ∧
      seq.length = r.count ∧
      ∀ i, i < r.count →
        seq[i]? = some (get_column (r.columns i)) ∧
        ((r.columns i).reportedLength = 0 → get_column (r.columns i) = none) ∧
        (0 < (r.columns i).reportedLength →
          get_column (r.columns i) =
            some (fillBuffer (r.columns i).reportedLength (r.columns i).fetched) ∧
          (fillBuffer (r.columns i).reportedLength (r.columns i).fetched).length =
            (r.columns i).reportedLength) := by
  refine ⟨(List.range r.count).map (fun i => get_column (r.columns i)), ?_, ?_, ?_⟩
  · rcases h with rfl | rfl <;> simp [caml_mysql_stmt_fetch, MYSQL_DATA_TRUNCATED]
  · simp
  · intro i hi
    refine ⟨?_, ?_, ?_⟩
    · simp [List.getElem?_map, List.getElem?_range, hi]
    · intro h0; simp [get_column, h0]
    · intro hpos; exact ⟨by simp [get_column, hpos], fillBuffer_length _ _⟩

/-- Example result `row_t` for the C2 witness: two columns, the first with
reported length 0 (NULL or empty), the second with reported length 3. -/
def rowEx2cols : RowT :=
  { count := 2
  , columns := fun i =>
      if i = 0 then { reportedLength := 0, fetched := [] }
      else { reportedLength := 3, fetched := [7, 8] } }

/-- Witness for C2 at a concrete two-column row and fetch code 0. -/
theorem C2_witness :
    ∃ seq : List (Option Bytes),
      caml_mysql_stmt_fetch rowEx2cols 0 = some seq ∧
      seq.length = rowEx2cols.count ∧
      ∀ i, i < rowEx2cols.count →
        seq[i]? = some (get_column (rowEx2cols.columns i)) ∧
        ((rowEx2cols.columns i).reportedLength = 0 →
          get_column (rowEx2cols.columns i) = none) ∧
        (0 < (rowEx2cols.columns i).reportedLength →
          get_column (rowEx2cols.columns i) =
            some (fillBuffer (rowEx2cols.columns i).reportedLength
                    (rowEx2cols.columns i).fetched) ∧
          (fillBuffer (rowEx2cols.columns i).reportedLength
              (rowEx2cols.columns i).fetched).length =
            (rowEx2cols.columns i).reportedLength) :=
  C2_stmt_row_assembly rowEx2cols 0 (Or.inl rfl)

/-- Claim C8: on the prepared-statement fetch path, any `mysql_stmt_fetch`
code other than 0 or `MYSQL_DATA_TRUNCATED` (end of data, errors) yields
`none` — no exception, no partial row; only 0 or the truncation code leads
to assembling and returning a row. -/
theorem C8_fetch_error_yields_none (r : RowT) (code : Int) :
    ((code ≠ 0 ∧ code ≠ MYSQL_DATA_TRUNCATED) → caml_mysql_stmt_fetch r code = none) ∧
    ((code = 0 ∨ code = MYSQL_DATA_TRUNCATED) →
      caml_mysql_stmt_fetch r code =
        some ((List.range r.count).map (fun i => get_column (r.columns i)))) := by
  constructor
  · intro h; simp [caml_mysql_stmt_fetch, h]
  · intro h; rcases h with rfl | rfl <;> simp [caml_mysql_stmt_fetch, MYSQL_DATA_TRUNCATED]

/-- Example result `row_t` for the C8 witness. -/
def rowEx1col : RowT :=
  { count := 1, columns := fun _ => { reportedLength := 2, fetched := [9] } }

/-- Witness for C8: the `MYSQL_NO_DATA` code (100) yields `none`. -/
theorem C8_witness : caml_mysql_stmt_fetch rowEx1col MYSQL_NO_DATA = none :=
  (C8_fetch_error_yields_none rowEx1col MYSQL_NO_DATA).1 (by decide)

/-- Claim C3: executing a prepared statement with a parameter list whose
length differs from the server-declared parameter count fails with the
parameter-count error carrying both counts, and the event trace is empty —
in particular no `mysql_stmt_bind_param` and no `mysql_stmt_execute` call
is issued. -/
theorem C3_param_count_guard (stmt : Stmt) (params : List Bytes) (o : ExecOracle)
    (h : params.length ≠ stmt.paramCount) :
    caml_mysql_stmt_execute stmt params o =
      (.error (.mysqlError (paramCountMsg params.length stmt.paramCount)), []) ∧
    ExecEvent.bindParam ∉ (caml_mysql_stmt_execute stmt params o).2 ∧
    ExecEvent.stmtExecute ∉ (caml_mysql_stmt_execute stmt params o).2 := by
  have he : caml_mysql_stmt_execute stmt params o =
      (.error (.mysqlError (paramCountMsg params.length stmt.paramCount)), []) := by
    simp [caml_mysql_stmt_execute, h]
  exact ⟨he, by rw [he]; simp, by rw [he]; simp⟩

/-- Example statement for the C3 witness: two parameters declared. -/
def stmtEx2params : Stmt := { paramCount := 2, fieldCount := 1 }

/-- All-success oracle for the C3 witness. -/
def oracleAllOk : ExecOracle :=
  { paramAllocOk := true, bindParamOk := true, executeOk := true
  , resultAllocOk := true, bindResultOk := true }

/-- Witness for C3: passing one parameter to a two-parameter statement
fails with the count error and an empty trace. -/
theorem C3_witness :
    caml_mysql_stmt_execute stmtEx2params [[1]] oracleAllOk =
      (.error (.mysqlError (paramCountMsg ([[1]] : List Bytes).length
        stmtEx2params.paramCount)), []) ∧
    ExecEvent.bindParam ∉ (caml_mysql_stmt_execute stmtEx2params [[1]] oracleAllOk).2 ∧
    ExecEvent.stmtExecute ∉ (caml_mysql_stmt_execute stmtEx2params [[1]] oracleAllOk).2 :=
  C3_param_count_guard stmtEx2params [[1]] oracleAllOk (by decide)

/-- Claim C9: once the parameter `row_t` has been created, it is destroyed
exactly once on every path of `caml_mysql_stmt_execute` — when
`mysql_stmt_bind_param` fails, when `mysql_stmt_execute` fails (the
mid-protocol case: the destroy event precedes the propagated error), and on
success after execution. -/
theorem C9_param_row_released (stmt : Stmt) (params : List Bytes) (o : ExecOracle)
    (hlen : params.length = stmt.paramCount) (halloc : o.paramAllocOk = true) :
    (caml_mysql_stmt_execute stmt params o).2.count ExecEvent.destroyParamRow = 1 ∧
    (o.bindParamOk = false →
      caml_mysql_stmt_execute stmt params o =
        (.error (.mysqlError "P.execute : mysql_stmt_bind_param"),
         [.createParamRow, .bindParam, .destroyParamRow])) ∧
    (o.bindParamOk = true → o.executeOk = false →
      caml_mysql_stmt_execute stmt params o =
        (.error (.mysqlError "P.execute : mysql_stmt_execute"),
         [.createParamRow, .bindParam, .stmtExecute, .destroyParamRow])) := by
  obtain ⟨pa, bp, ex, ra, br⟩ := o
  simp only at halloc
  subst halloc
  refine ⟨?_, ?_, ?_⟩
  · cases bp <;> cases ex <;> cases ra <;> cases br <;>
      by_cases hf : stmt.fieldCount = 0 <;>
      simp [caml_mysql_stmt_execute, hlen, hf, List.count_cons, List.count_nil]
  · intro hbp
    simp only at hbp
    subst hbp
    simp [caml_mysql_stmt_execute, hlen]
  · intro hbp hex
    simp only at hbp hex
    subst hbp
    subst hex
    simp [caml_mysql_stmt_execute, hlen]

/-- Example statement for the C9 witness: one parameter, one result
column. -/
def stmtEx1param : Stmt := { paramCount := 1, fieldCount := 1 }

/-- Oracle for the C9 witness: bind succeeds, execute fails
(the mid-protocol failure case). -/
def oracleExecFails : ExecOracle :=
  { paramAllocOk := true, bindParamOk := true, executeOk := false
  , resultAllocOk := true, bindResultOk := true }

/-- Witness for C9 at the mid-protocol failure: the parameter row is
destroyed exactly once before the execute error propagates. -/
theorem C9_witness :
    (caml_mysql_stmt_execute stmtEx1param [[5]] oracleExecFails).2.count
      ExecEvent.destroyParamRow = 1 ∧
    (oracleExecFails.bindParamOk = false →
      caml_mysql_stmt_execute stmtEx1param [[5]] oracleExecFails =
        (.error (.mysqlError "P.execute : mysql_stmt_bind_param"),
         [.createParamRow, .bindParam, .destroyParamRow])) ∧
    (oracleExecFails.bindParamOk = true → oracleExecFails.executeOk = false →
      caml_mysql_stmt_execute stmtEx1param [[5]] oracleExecFails =
        (.error (.mysqlError "P.execute : mysql_stmt_execute"),
         [.createParamRow, .bindParam, .stmtExecute, .destroyParamRow])) :=
  C9_param_row_released stmtEx1param [[5]] oracleExecFails (by decide) (by decide)

/-- Counterexample to claim C1: `db_list_dbs` is neither `disconnect` nor a
status check, yet on a closed connection it does not fail fast — it calls
`mysql_list_dbs` on the native session and returns normally. -/
theorem C1_counterexample :
    db_list_dbs { isOpen := false } (some ["mysql"]) =
      (.ok (some ["mysql"]), [NativeCall.listDbs]) := rfl

/-- Claim C1 (amended): the operations `change_user`, `select_db`, `exec`,
`ping`, `status`, `errmsg` and `P.prepare` are guarded by `check_dbd` and,
on a closed connection, fail fast with the closed-connection error before
any native call (empty trace); but `list_dbs`, `affected`, `insert_id`,
`host_info`, `server_info` and `proto_info` are unguarded and touch the
native session even when the connection is closed. -/
theorem C1_guard_audit (dbd : Dbd) (h : dbd.isOpen = false)
    (ocu osel oping : Option String) (newdb sql : String)
    (oexec : Except String (Option ResState)) (nerrno : Nat) (msg : Option String)
    (oprep : PrepOracle) (olist : Option (List String))
    (naff nid : Nat) (hinfo sinfo : String) (pinfo : Nat) :
    db_change_user dbd ocu = (.error (closedConnMsg "change_user"), []) ∧
    db_select_db dbd newdb osel = (.error (closedConnMsg "select_db"), []) ∧
    db_exec dbd sql oexec = (.error (closedConnMsg "exec"), []) ∧
    db_ping dbd oping = (.error (closedConnMsg "ping"), []) ∧
    db_status dbd nerrno = (.error (closedConnMsg "status"), []) ∧
    db_errmsg dbd msg = (.error (closedConnMsg "errmsg"), []) ∧
    caml_mysql_stmt_prepare dbd oprep = (.error (closedConnMsg "P.prepare"), []) ∧
    (db_list_dbs dbd olist).2 = [NativeCall.listDbs] ∧
    db_affected dbd naff = (.ok naff, [NativeCall.affectedRows]) ∧
    db_insert_id dbd nid = (.ok nid, [NativeCall.insertId]) ∧
    db_host_info dbd hinfo = (.ok hinfo, [NativeCall.hostInfo]) ∧
    db_server_info dbd sinfo = (.ok sinfo, [NativeCall.serverInfo]) ∧
    db_proto_info dbd pinfo = (.ok pinfo, [NativeCall.protoInfo]) := by
  refine ⟨?_, ?_, ?_, ?_, ?_, ?_, ?_, rfl, rfl, rfl, rfl, rfl, rfl⟩ <;>
    simp [db_change_user, db_select_db, db_exec, db_ping, db_status, db_errmsg,
          caml_mysql_stmt_prepare, check_dbd, h]

/-- Witness for the amended C1: `ping` on a closed connection fails fast
with the closed-connection error and an empty native-call trace. -/
theorem C1_witness :
    db_ping { isOpen := false } none = (.error (closedConnMsg "ping"), []) :=
  (C1_guard_audit { isOpen := false } rfl none none none "" "" (.ok none) 0 none
      { initOk := true, prepareOk := true } none 0 0 "" "" 0).2.2.2.1

/-- Counterexample to claim C4: calling `db_disconnect` on an already
closed connection is not a safe no-op — `check_dbd` raises the
closed-connection error. -/
theorem C4_counterexample :
    db_disconnect { isOpen := false } =
      (.error (closedConnMsg "disconnect"), []) := rfl

/-- Claim C4 (amended): `disconnect` on an open connection closes the
native session and clears the open flag; a second `disconnect` on the
already-closed connection raises the closed-connection error (it is not a
no-op); and guarded non-disconnect operations attempted after the close
fail with the closed-connection error. -/
theorem C4_disconnect_once (o : Option String) (sql : String)
    (oexec : Except String (Option ResState)) :
    db_disconnect { isOpen := true } = (.ok { isOpen := false }, [NativeCall.closeSession]) ∧
    db_disconnect { isOpen := false } = (.error (closedConnMsg "disconnect"), []) ∧
    db_ping { isOpen := false } o = (.error (closedConnMsg "ping"), []) ∧
    db_exec { isOpen := false } sql oexec = (.error (closedConnMsg "exec"), []) := by
  refine ⟨rfl, rfl, ?_, ?_⟩ <;> simp [db_ping, db_exec, check_dbd]

/-- Witness for the amended C4 at concrete oracles. -/
theorem C4_witness :
    db_disconnect { isOpen := true } = (.ok { isOpen := false }, [NativeCall.closeSession]) ∧
    db_disconnect { isOpen := false } = (.error (closedConnMsg "disconnect"), []) ∧
    db_ping { isOpen := false } (some "err") = (.error (closedConnMsg "ping"), []) ∧
    db_exec { isOpen := false } "SELECT 1" (.ok none) =
      (.error (closedConnMsg "exec"), []) :=
  C4_disconnect_once (some "err") "SELECT 1" (.ok none)

/-- Claim C7: `db_fetch` on a buffered result fails with the no-result
error when the handle is NULL or the column count is zero; otherwise it
returns `none` once the cursor is past the last row, and else `some` of the
next row — built per column by `val_str_option` (NULL cell to `none`, bytes
to `some`), with length equal to the column count — advancing the cursor by
one. -/
theorem C7_fetch_row (st : ResState) :
    db_fetch none =
      .error (.mysqlError "Mysql.fetch: result did not return fetchable data") ∧
    (st.numFields = 0 →
      db_fetch (some st) = .error (.mysqlError "Mysql.fetch: no columns")) ∧
    (st.numFields ≠ 0 → st.rows.length ≤ st.cursor →
      db_fetch (some st) = .ok (none, st)) ∧
    (∀ row, st.numFields ≠ 0 → st.rows[st.cursor]? = some row →
      db_fetch (some st) =
        .ok (some (build_row st.numFields row), { st with cursor := st.cursor + 1 }) ∧
      (build_row st.numFields row).length = st.numFields ∧
      (∀ i, i < st.numFields →
        (build_row st.numFields row)[i]? = some (val_str_option (row.getD i none)))) ∧
    val_str_option none = none ∧
    (∀ bs : Bytes, val_str_option (some bs) = some bs) := by
  refine ⟨rfl, ?_, ?_, ?_, rfl, fun bs => rfl⟩
  · intro h0; simp [db_fetch, h0]
  · intro hn hlen; simp [db_fetch, hn, List.getElem?_eq_none hlen]
  · intro row hn hrow
    refine ⟨by simp [db_fetch, hn, hrow], by simp [build_row], ?_⟩
    intro i hi
    simp [build_row, List.getElem?_map, List.getElem?_range, hi]

/-- Example buffered result for the C7 witness: two columns, one row with
a non-NULL first cell and a NULL second cell. -/
def resExOneRow : ResState :=
  { numFields := 2, rows := [[some [65], none]], cursor := 0 }

/-- Witness for C7: fetching the single row of `resExOneRow` returns it
and advances the cursor. -/
theorem C7_witness :
    db_fetch (some resExOneRow) =
      .ok (some (build_row resExOneRow.numFields [some [65], none]),
           { resExOneRow with cursor := resExOneRow.cursor + 1 }) :=
  ((C7_fetch_row resExOneRow).2.2.2.1 [some [65], none] (by decide) (by decide)).1

/-- Claim C10: on an open connection, `db_errmsg` returns `None` exactly
when the native error message is absent (NULL) or empty, and otherwise
returns `Some` of the full message text — an empty-string error is never
surfaced as `Some ""`. -/
theorem C10_errmsg_none_iff (dbd : Dbd) (msg : Option String) (h : dbd.isOpen = true) :
    ((db_errmsg dbd msg).1 = .ok none ↔ msg = none ∨ msg = some "") ∧
    (∀ s, msg = some s → s ≠ "" →
      db_errmsg dbd msg = (.ok (some s), [NativeCall.errorMsg])) := by
  constructor
  · cases msg with
    | none => simp [db_errmsg, check_dbd, h]
    | some s =>
      by_cases hs : s = ""
      · subst hs; simp [db_errmsg, check_dbd, h]
      · simp [db_errmsg, check_dbd, h, hs]
  · intro s hmsg hs
    subst hmsg
    simp [db_errmsg, check_dbd, h, hs]

/-- Witness for C10: a non-empty native message on an open connection is
returned in full as `Some`. -/
theorem C10_witness :
    db_errmsg { isOpen := true } (some "Unknown column") =
      (.ok (some "Unknown column"), [NativeCall.errorMsg]) :=
  (C10_errmsg_none_iff { isOpen := true } (some "Unknown column") rfl).2
    "Unknown column" rfl (by decide)

end MysqlStubs
